import Mathlib

/-!
Verification development for the prnthh/native-threejs-starter repository
(Deno + SDL2 + WebGPU bridge, two entry points: the imperative variant
`src/main.ts` and the reactive variant `src/r3f.tsx`).

The shallow embedding below translates the windowing/surface/render-loop
bridge of the two entry points into pure Lean functions:

* byte-buffer decoding (`Deno.UnsafePointerView.getUint32` / `getPointer`)
  becomes `getUint32LE` / `getUint64LE` over `List Nat` byte buffers;
* the native SDL2 calls are modelled by their observable results, passed
  in as parameters (a null pointer is `Option.none`);
* thrown JavaScript errors become `Except.error`;
* the event/render loops become step functions over an explicit `running`
  flag, driven by a per-iteration environment list, and produce a trace of
  observable actions (poll, render, present, sleep, destroy-window,
  library-quit) together with an outcome (normal exit, crash by uncaught
  exception, or out of scripted iterations).
-/

/-- Byte access into a buffer, `buf[i]` of a `Uint8Array` (0 past the end;
in-bounds use is established separately). -/
def getByte (buf : List Nat) (i : Nat) : Nat := buf.getD i 0

/-- Little-endian unsigned 32-bit read at byte offset `off`, the model of
`Deno.UnsafePointerView.getUint32(off)` as used in `src/main.ts` and
`src/r3f.tsx` (all target CPUs are little-endian). -/
def getUint32LE (buf : List Nat) (off : Nat) : Nat :=
  getByte buf off + 2 ^ 8 * getByte buf (off + 1) + 2 ^ 16 * getByte buf (off + 2) +
    2 ^ 24 * getByte buf (off + 3)

/-- Little-endian pointer-sized (64-bit) read at byte offset `off`, the
model of `Deno.UnsafePointerView.getPointer(off)`. -/
def getUint64LE (buf : List Nat) (off : Nat) : Nat :=
  getUint32LE buf off + 2 ^ 32 * getUint32LE buf (off + 4)

/-- `SDL_QUIT` event-type discriminant, `0x100` in both entry points. -/
def SDL_QUIT : Nat := 0x100

/-- `const sizeOfEvent = 56` (src/main.ts line 73, src/r3f.tsx line 128). -/
def sizeOfEvent : Nat := 56

/-- `const sizeOfSDL_SysWMInfo = 3 + 4 + 8 * 64` (src/main.ts line 76,
src/r3f.tsx line 131). -/
def sizeOfSDL_SysWMInfo : Nat := 3 + 4 + 8 * 64

/-- The ordered candidate list probed by `resolveSdl2Library` on macOS
(identical in src/main.ts lines 28-34 and src/r3f.tsx lines 19-25). -/
def sdl2Candidates : List String :=
  ["/opt/homebrew/opt/sdl2/lib/libSDL2.dylib",
   "/opt/homebrew/lib/libSDL2.dylib",
   "/usr/local/opt/sdl2/lib/libSDL2.dylib",
   "/usr/local/lib/libSDL2.dylib",
   "SDL2"]

/-- `resolveSdl2Library` (src/main.ts lines 26-43, src/r3f.tsx lines 17-34).
`buildOS` models `Deno.build.os`; `statSyncOk c` models whether
`Deno.statSync(c)` succeeds (the file exists).  On non-darwin the bare name
is returned immediately; on darwin the first candidate whose stat succeeds
is returned, falling back to the bare name `"SDL2"`. -/
def resolveSdl2Library (buildOS : String) (statSyncOk : String → Bool) : String :=
  if buildOS ≠ "darwin" then "SDL2"
  else
    match sdl2Candidates.find? statSyncOk with
    | some c => c
    | none => "SDL2"

/-- Result of `createWindow`: the non-null window handle, the (possibly
null) Metal view handle, and whether `SDL_Metal_CreateView` was invoked. -/
structure WindowHandles where
  window : Nat
  metalView : Option Nat
  metalViewCalled : Bool
deriving DecidableEq, Repr

/-- `createWindow(title, width, height)` (src/main.ts lines 80-97,
src/r3f.tsx lines 134-146).  `rawResult` models the pointer returned by the
native `SDL_CreateWindow` call (`none` = null); `metalViewResult` models
the pointer `SDL_Metal_CreateView` would return if invoked.  A null window
handle throws `"SDL_CreateWindow failed"`; on darwin the Metal view call is
made and its result stored (a null result is not fatal); elsewhere the call
is skipped and the view is null. -/
def createWindow (buildOS : String) (rawResult : Option Nat) (metalViewResult : Option Nat) :
    Except String WindowHandles :=
  match rawResult with
  | none => Except.error "SDL_CreateWindow failed"
  | some raw =>
    if buildOS = "darwin" then Except.ok ⟨raw, metalViewResult, true⟩
    else Except.ok ⟨raw, none, false⟩

/-- The argument record of the `Deno.UnsafeWindowSurface` constructor, as
assembled by `createSurface` from the decoded window-manager-info fields. -/
structure UnsafeWindowSurface where
  system : String
  windowHandle : Nat
  displayHandle : Option Nat
  width : Nat
  height : Nat
deriving DecidableEq, Repr

/-- `createSurface` of the imperative variant (src/main.ts lines 99-182).
`wmInfoOk` models the `SDL_GetWindowWMInfo` return value (`false` = 0,
failure); `wmInfoBuf` is the populated window-manager-info buffer;
`metalView` is the handle obtained in `createWindow`.  The branch structure,
the decoded offsets (`4` for the u32 subsystem discriminant, `4+4`,
`4+4+8`, `4+4+8+8` for the pointer-sized handles) and the thrown error
strings follow the source line by line. -/
def createSurfaceMain (buildOS : String) (wmInfoOk : Bool) (wmInfoBuf : List Nat)
    (metalView : Option Nat) (width height : Nat) : Except String UnsafeWindowSurface :=
  if wmInfoOk = false then Except.error "SDL_GetWindowWMInfo failed"
  else
    let subsystem := getUint32LE wmInfoBuf 4
    if buildOS = "darwin" then
      let nsView := getUint64LE wmInfoBuf (4 + 4)
      if subsystem ≠ 4 then Except.error "Expected SDL_SYSWM_COCOA on macOS"
      else Except.ok ⟨"cocoa", nsView, metalView, width, height⟩
    else if buildOS = "windows" then
      let hwnd := getUint64LE wmInfoBuf (4 + 4)
      if subsystem = 1 then
        Except.ok ⟨"win32", hwnd, some (getUint64LE wmInfoBuf (4 + 4 + 8 + 8)), width, height⟩
      else if subsystem = 8 then Except.error "WinRT is not supported"
      else Except.error "Expected SDL_SYSWM_WINDOWS on Windows"
    else if buildOS = "linux" then
      let display := getUint64LE wmInfoBuf (4 + 4)
      let srf := getUint64LE wmInfoBuf (4 + 4 + 8)
      if subsystem = 2 then Except.ok ⟨"x11", srf, some display, width, height⟩
      else if subsystem = 6 then Except.ok ⟨"wayland", srf, some display, width, height⟩
      else Except.error "Expected SDL_SYSWM_X11 or SDL_SYSWM_WAYLAND on Linux"
    else Except.error "Unsupported platform"

/-- `createSurface` of the reactive variant (src/r3f.tsx lines 148-212).
Unlike the imperative variant, the darwin and windows branches construct
the surface without checking the decoded subsystem discriminant (it is read
at line 160 but only consulted in the linux branch). -/
def createSurfaceR3f (buildOS : String) (wmInfoOk : Bool) (wmInfoBuf : List Nat)
    (metalView : Option Nat) (width height : Nat) : Except String UnsafeWindowSurface :=
  if wmInfoOk = false then Except.error "SDL_GetWindowWMInfo failed"
  else
    let subsystem := getUint32LE wmInfoBuf 4
    if buildOS = "darwin" then
      Except.ok ⟨"cocoa", getUint64LE wmInfoBuf (4 + 4), metalView, width, height⟩
    else if buildOS = "windows" then
      Except.ok ⟨"win32", getUint64LE wmInfoBuf (4 + 4),
        some (getUint64LE wmInfoBuf (4 + 4 + 8 + 8)), width, height⟩
    else if buildOS = "linux" then
      let display := getUint64LE wmInfoBuf (4 + 4)
      let srf := getUint64LE wmInfoBuf (4 + 4 + 8)
      if subsystem = 2 then Except.ok ⟨"x11", srf, some display, width, height⟩
      else if subsystem = 6 then Except.ok ⟨"wayland", srf, some display, width, height⟩
      else Except.error "Expected SDL_SYSWM_X11 or SDL_SYSWM_WAYLAND on Linux"
    else Except.error "Unsupported platform"

/-- Whether an `Except` result is a failure (a thrown error). -/
def isError {α : Type} (e : Except String α) : Bool :=
  match e with
  | Except.error _ => true
  | Except.ok _ => false

/-- Modelled from the spec: the valid (OS, subsystem-discriminant) pairs of
the specification (macOS: Cocoa = 4; Windows: Win32 = 1; Linux: X11 = 2 or
Wayland = 6; nothing on other OSes).  This is the spec-side predicate that
claim C2 compares the source-level `createSurface` functions against. -/
def specValidSubsystem (buildOS : String) (subsystem : Nat) : Bool :=
  if buildOS = "darwin" then subsystem == 4
  else if buildOS = "windows" then subsystem == 1
  else if buildOS = "linux" then subsystem == 2 || subsystem == 6
  else false

/-- Observable actions of the event/render loops: a dequeued `SDL_PollEvent`
call, the frame tick (`renderer.render` in src/main.ts, the reactive
scheduler's render in src/r3f.tsx), the `surface.present()` call, the 1 ms
`setTimeout` sleep of src/r3f.tsx, and the two shutdown calls
`SDL_DestroyWindow` and `SDL_Quit`. -/
inductive LoopAction where
  | pollEvent
  | renderFrame
  | present
  | yieldSleep
  | destroyWindow
  | sdlQuit
deriving DecidableEq, Repr

/-- How a run of the loop ends: `finished` = the `while (running)` condition
became false and control reached the shutdown lines; `crashed` = an uncaught
exception propagated out of the loop body, skipping the shutdown lines;
`outOfFuel` = the scripted iteration environment was exhausted while the
loop was still running (the run is not an exiting execution). -/
inductive Outcome where
  | finished
  | crashed
  | outOfFuel
deriving DecidableEq, Repr

/-- The inner `while (SDL_PollEvent(event) === 1)` drain pass (src/main.ts
lines 286-294, src/r3f.tsx lines 316-320), over the queue of pending event
records.  Each dequeued record's type discriminant is read with
`getUint32()` at offset 0; on `SDL_QUIT` the running flag is set to false
and the inner loop breaks (leaving later events queued); any other event is
ignored.  Returns (new running flag, number of events dequeued, events left
in the queue). -/
def drainEvents : List (List Nat) → Bool → Bool × Nat × List (List Nat)
  | [], running => (running, 0, [])
  | rec :: rest, running =>
    if getUint32LE rec 0 = SDL_QUIT then (false, 1, rest)
    else
      let d := drainEvents rest running
      (d.1, d.2.1 + 1, d.2.2)

/-- Environment of one iteration of the imperative loop (src/main.ts):
the event records `SDL_PollEvent` will deliver during the drain pass, and
whether the `surface.present()` call of this iteration throws. -/
structure IterInput where
  events : List (List Nat)
  presentThrows : Bool
deriving DecidableEq, Repr

/-- One iteration of the imperative loop body (src/main.ts lines 284-304):
the drain pass, then — unconditionally, with no check of the running flag —
the frame tick (`cube.rotation` mutation plus `renderer.render`) and the
`surface.present()` call.  Returns the action trace of the iteration and
the running flag after it. -/
def mainIter (running : Bool) (it : IterInput) : List LoopAction × Bool :=
  let d := drainEvents it.events running
  (List.replicate d.2.1 LoopAction.pollEvent ++ [LoopAction.renderFrame, LoopAction.present], d.1)

/-- The imperative `while (running)` loop plus the shutdown lines that
follow it (src/main.ts lines 284-308).  There is no try/catch anywhere in
this variant: when `present` throws, the exception propagates out of the
loop and past the `SDL_DestroyWindow`/`SDL_Quit` lines (outcome
`crashed`). -/
def runMainAux : Bool → List IterInput → List LoopAction × Outcome
  | false, _ => ([LoopAction.destroyWindow, LoopAction.sdlQuit], Outcome.finished)
  | true, [] => ([], Outcome.outOfFuel)
  | true, it :: rest =>
    if it.presentThrows then ((mainIter true it).1, Outcome.crashed)
    else
      ((mainIter true it).1 ++ (runMainAux (mainIter true it).2 rest).1,
        (runMainAux (mainIter true it).2 rest).2)

/-- The whole imperative run: `let running = true` then the loop. -/
def runMain (l : List IterInput) : List LoopAction × Outcome := runMainAux true l

/-- Environment of one iteration of the reactive loop (src/r3f.tsx):
the pending event records, whether the poll section throws (it is wrapped
in try/catch, lines 314-324), whether the reactive scheduler fires a frame
during this iteration's 1 ms sleep, and whether that frame's
`surface.present()` call (inside the `addAfterEffect` hook, lines 275-282)
throws (it is caught by the hook, which sets `running = false`). -/
structure R3fIterInput where
  events : List (List Nat)
  pollThrows : Bool
  frameDuringSleep : Bool
  presentThrows : Bool
deriving DecidableEq, Repr

/-- One iteration of the reactive loop (src/r3f.tsx lines 313-326 together
with the `addAfterEffect` presenter, lines 275-282): the caught drain pass
(an exception there sets `running` to false), then any frame the scheduler
renders during the 1 ms sleep — presented by the hook, with a throwing
present caught and converted into `running = false` — and the sleep itself,
which ends the iteration. -/
def r3fIter (running : Bool) (it : R3fIterInput) : List LoopAction × Bool :=
  let drainTr : List LoopAction :=
    if it.pollThrows then []
    else List.replicate (drainEvents it.events running).2.1 LoopAction.pollEvent
  let r1 : Bool := if it.pollThrows then false else (drainEvents it.events running).1
  let hookTr : List LoopAction :=
    if it.frameDuringSleep then [LoopAction.renderFrame, LoopAction.present] else []
  let r2 : Bool :=
    if it.frameDuringSleep then (if it.presentThrows then false else r1) else r1
  (drainTr ++ hookTr ++ [LoopAction.yieldSleep], r2)

/-- The reactive `while (running)` loop plus the shutdown lines following
it (src/r3f.tsx lines 313-329).  Every exception inside an iteration is
caught, so this variant never crashes out of the loop. -/
def runR3fAux : Bool → List R3fIterInput → List LoopAction × Outcome
  | false, _ => ([LoopAction.destroyWindow, LoopAction.sdlQuit], Outcome.finished)
  | true, [] => ([], Outcome.outOfFuel)
  | true, it :: rest =>
    ((r3fIter true it).1 ++ (runR3fAux (r3fIter true it).2 rest).1,
      (runR3fAux (r3fIter true it).2 rest).2)

/-- The whole reactive run: `let running = true` then the loop. -/
def runR3f (l : List R3fIterInput) : List LoopAction × Outcome := runR3fAux true l

/-- A 56-byte event record carrying the `SDL_QUIT` discriminant `0x100`
little-endian at offset 0 (bytes `00 01 00 00`). -/
def quitRec : List Nat := [0, 1] ++ List.replicate 54 0

/-- A 56-byte event record whose type discriminant is 0, not `SDL_QUIT`. -/
def noopRec : List Nat := List.replicate 56 0

/-- A synthetic window-manager-info buffer: four version bytes, four
subsystem-discriminant bytes, then three 8-byte fields covering byte
offsets 8-31, then an arbitrary tail. -/
def synthWMBuf (v0 v1 v2 v3 s0 s1 s2 s3 a0 a1 a2 a3 a4 a5 a6 a7
    b0 b1 b2 b3 b4 b5 b6 b7 c0 c1 c2 c3 c4 c5 c6 c7 : Nat) (rest : List Nat) : List Nat :=
  v0 :: v1 :: v2 :: v3 :: s0 :: s1 :: s2 :: s3 ::
    a0 :: a1 :: a2 :: a3 :: a4 :: a5 :: a6 :: a7 ::
    b0 :: b1 :: b2 :: b3 :: b4 :: b5 :: b6 :: b7 ::
    c0 :: c1 :: c2 :: c3 :: c4 :: c5 :: c6 :: c7 :: rest

/-- Claim C5: on every synthetic window-manager-info buffer the struct
decoder reads the subsystem discriminant as a little-endian u32 at byte
offset 4, and extracts the pointer-sized handles at exactly the documented
offsets — macOS/Cocoa view at offset 8; Windows/Win32 window handle at
offset 8 and instance handle at offset 8 + 8 + 8 = 24 (the 8-byte gap);
Linux display at offset 8 and surface/window at offset 16.  The first four
conjuncts pin the raw reads for arbitrary planted bytes; the remaining
conjuncts show `createSurface` of both variants wiring exactly those fields
into the constructed surface for each valid discriminant. -/
theorem C5_decoder_offsets
    (v0 v1 v2 v3 s0 s1 s2 s3 a0 a1 a2 a3 a4 a5 a6 a7
      b0 b1 b2 b3 b4 b5 b6 b7 c0 c1 c2 c3 c4 c5 c6 c7 : Nat)
    (rest : List Nat) (mv : Option Nat) (w h : Nat) :
    getUint32LE (synthWMBuf v0 v1 v2 v3 s0 s1 s2 s3 a0 a1 a2 a3 a4 a5 a6 a7
        b0 b1 b2 b3 b4 b5 b6 b7 c0 c1 c2 c3 c4 c5 c6 c7 rest) 4 =
      s0 + 2 ^ 8 * s1 + 2 ^ 16 * s2 + 2 ^ 24 * s3
    ∧ getUint64LE (synthWMBuf v0 v1 v2 v3 s0 s1 s2 s3 a0 a1 a2 a3 a4 a5 a6 a7
        b0 b1 b2 b3 b4 b5 b6 b7 c0 c1 c2 c3 c4 c5 c6 c7 rest) 8 =
      a0 + 2 ^ 8 * a1 + 2 ^ 16 * a2 + 2 ^ 24 * a3 +
        2 ^ 32 * (a4 + 2 ^ 8 * a5 + 2 ^ 16 * a6 + 2 ^ 24 * a7)
    ∧ getUint64LE (synthWMBuf v0 v1 v2 v3 s0 s1 s2 s3 a0 a1 a2 a3 a4 a5 a6 a7
        b0 b1 b2 b3 b4 b5 b6 b7 c0 c1 c2 c3 c4 c5 c6 c7 rest) 16 =
      b0 + 2 ^ 8 * b1 + 2 ^ 16 * b2 + 2 ^ 24 * b3 +
        2 ^ 32 * (b4 + 2 ^ 8 * b5 + 2 ^ 16 * b6 + 2 ^ 24 * b7)
    ∧ getUint64LE (synthWMBuf v0 v1 v2 v3 s0 s1 s2 s3 a0 a1 a2 a3 a4 a5 a6 a7
        b0 b1 b2 b3 b4 b5 b6 b7 c0 c1 c2 c3 c4 c5 c6 c7 rest) 24 =
      c0 + 2 ^ 8 * c1 + 2 ^ 16 * c2 + 2 ^ 24 * c3 +
        2 ^ 32 * (c4 + 2 ^ 8 * c5 + 2 ^ 16 * c6 + 2 ^ 24 * c7)
    ∧ createSurfaceMain "darwin" true (synthWMBuf v0 v1 v2 v3 4 0 0 0 a0 a1 a2 a3 a4 a5 a6 a7
        b0 b1 b2 b3 b4 b5 b6 b7 c0 c1 c2 c3 c4 c5 c6 c7 rest) mv w h =
      Except.ok ⟨"cocoa",
        a0 + 2 ^ 8 * a1 + 2 ^ 16 * a2 + 2 ^ 24 * a3 +
          2 ^ 32 * (a4 + 2 ^ 8 * a5 + 2 ^ 16 * a6 + 2 ^ 24 * a7), mv, w, h⟩
    ∧ createSurfaceMain "windows" true (synthWMBuf v0 v1 v2 v3 1 0 0 0 a0 a1 a2 a3 a4 a5 a6 a7
        b0 b1 b2 b3 b4 b5 b6 b7 c0 c1 c2 c3 c4 c5 c6 c7 rest) mv w h =
      Except.ok ⟨"win32",
        a0 + 2 ^ 8 * a1 + 2 ^ 16 * a2 + 2 ^ 24 * a3 +
          2 ^ 32 * (a4 + 2 ^ 8 * a5 + 2 ^ 16 * a6 + 2 ^ 24 * a7),
        some (c0 + 2 ^ 8 * c1 + 2 ^ 16 * c2 + 2 ^ 24 * c3 +
          2 ^ 32 * (c4 + 2 ^ 8 * c5 + 2 ^ 16 * c6 + 2 ^ 24 * c7)), w, h⟩
    ∧ createSurfaceMain "linux" true (synthWMBuf v0 v1 v2 v3 2 0 0 0 a0 a1 a2 a3 a4 a5 a6 a7
        b0 b1 b2 b3 b4 b5 b6 b7 c0 c1 c2 c3 c4 c5 c6 c7 rest) mv w h =
      Except.ok ⟨"x11",
        b0 + 2 ^ 8 * b1 + 2 ^ 16 * b2 + 2 ^ 24 * b3 +
          2 ^ 32 * (b4 + 2 ^ 8 * b5 + 2 ^ 16 * b6 + 2 ^ 24 * b7),
        some (a0 + 2 ^ 8 * a1 + 2 ^ 16 * a2 + 2 ^ 24 * a3 +
          2 ^ 32 * (a4 + 2 ^ 8 * a5 + 2 ^ 16 * a6 + 2 ^ 24 * a7)), w, h⟩
    ∧ createSurfaceMain "linux" true (synthWMBuf v0 v1 v2 v3 6 0 0 0 a0 a1 a2 a3 a4 a5 a6 a7
        b0 b1 b2 b3 b4 b5 b6 b7 c0 c1 c2 c3 c4 c5 c6 c7 rest) mv w h =
      Except.ok ⟨"wayland",
        b0 + 2 ^ 8 * b1 + 2 ^ 16 * b2 + 2 ^ 24 * b3 +
          2 ^ 32 * (b4 + 2 ^ 8 * b5 + 2 ^ 16 * b6 + 2 ^ 24 * b7),
        some (a0 + 2 ^ 8 * a1 + 2 ^ 16 * a2 + 2 ^ 24 * a3 +
          2 ^ 32 * (a4 + 2 ^ 8 * a5 + 2 ^ 16 * a6 + 2 ^ 24 * a7)), w, h⟩
    ∧ createSurfaceR3f "windows" true (synthWMBuf v0 v1 v2 v3 1 0 0 0 a0 a1 a2 a3 a4 a5 a6 a7
        b0 b1 b2 b3 b4 b5 b6 b7 c0 c1 c2 c3 c4 c5 c6 c7 rest) mv w h =
      Except.ok ⟨"win32",
        a0 + 2 ^ 8 * a1 + 2 ^ 16 * a2 + 2 ^ 24 * a3 +
          2 ^ 32 * (a4 + 2 ^ 8 * a5 + 2 ^ 16 * a6 + 2 ^ 24 * a7),
        some (c0 + 2 ^ 8 * c1 + 2 ^ 16 * c2 + 2 ^ 24 * c3 +
          2 ^ 32 * (c4 + 2 ^ 8 * c5 + 2 ^ 16 * c6 + 2 ^ 24 * c7)), w, h⟩
    ∧ createSurfaceR3f "linux" true (synthWMBuf v0 v1 v2 v3 2 0 0 0 a0 a1 a2 a3 a4 a5 a6 a7
        b0 b1 b2 b3 b4 b5 b6 b7 c0 c1 c2 c3 c4 c5 c6 c7 rest) mv w h =
      Except.ok ⟨"x11",
        b0 + 2 ^ 8 * b1 + 2 ^ 16 * b2 + 2 ^ 24 * b3 +
          2 ^ 32 * (b4 + 2 ^ 8 * b5 + 2 ^ 16 * b6 + 2 ^ 24 * b7),
        some (a0 + 2 ^ 8 * a1 + 2 ^ 16 * a2 + 2 ^ 24 * a3 +
          2 ^ 32 * (a4 + 2 ^ 8 * a5 + 2 ^ 16 * a6 + 2 ^ 24 * a7)), w, h⟩ :=
  ⟨rfl, rfl, rfl, rfl, rfl, rfl, rfl, rfl, rfl, rfl⟩

/-- Reading within the first `n` bytes is unaffected by truncating the
buffer to `n` bytes. -/
theorem getByte_take (l : List Nat) (n i : Nat) (h : i < n) :
    getByte (l.take n) i = getByte l i := by
  simp [getByte, List.getD, List.getElem?_take, h]

/-- A u32 read fully below `n` is unaffected by truncation to `n` bytes. -/
theorem getUint32LE_take (l : List Nat) (n off : Nat) (h : off + 4 ≤ n) :
    getUint32LE (l.take n) off = getUint32LE l off := by
  unfold getUint32LE
  rw [getByte_take l n off (by omega), getByte_take l n (off + 1) (by omega),
    getByte_take l n (off + 2) (by omega), getByte_take l n (off + 3) (by omega)]

/-- A u64 read fully below `n` is unaffected by truncation to `n` bytes. -/
theorem getUint64LE_take (l : List Nat) (n off : Nat) (h : off + 8 ≤ n) :
    getUint64LE (l.take n) off = getUint64LE l off := by
  unfold getUint64LE
  rw [getUint32LE_take l n off (by omega), getUint32LE_take l n (off + 4) (by omega)]

/-- Claim C10: every decoder read stays within the two fixed scratch
buffers.  The event record is 56 bytes and its only read is the 4-byte type
discriminant at offset 0; the window-manager-info buffer is
3 + 4 + 8 * 64 = 519 bytes and its reads are the u32 at offset 4 and the
8-byte reads at offsets 8, 16 and 24 (ending at byte 32).  Formally: the
event-type decode and both `createSurface` variants are unchanged when the
buffer is truncated to its declared size, i.e. no read reaches past it. -/
theorem C10_reads_in_bounds (buf recBuf : List Nat) (os : String) (wmOk : Bool)
    (mv : Option Nat) (w h : Nat) :
    sizeOfEvent = 56 ∧ sizeOfSDL_SysWMInfo = 519 ∧
    getUint32LE (recBuf.take sizeOfEvent) 0 = getUint32LE recBuf 0 ∧
    createSurfaceMain os wmOk (buf.take sizeOfSDL_SysWMInfo) mv w h =
      createSurfaceMain os wmOk buf mv w h ∧
    createSurfaceR3f os wmOk (buf.take sizeOfSDL_SysWMInfo) mv w h =
      createSurfaceR3f os wmOk buf mv w h := by
  have h32 : getUint32LE (buf.take sizeOfSDL_SysWMInfo) 4 = getUint32LE buf 4 :=
    getUint32LE_take buf sizeOfSDL_SysWMInfo 4 (by norm_num [sizeOfSDL_SysWMInfo])
  have h8 : getUint64LE (buf.take sizeOfSDL_SysWMInfo) (4 + 4) = getUint64LE buf (4 + 4) :=
    getUint64LE_take buf sizeOfSDL_SysWMInfo (4 + 4) (by norm_num [sizeOfSDL_SysWMInfo])
  have h16 : getUint64LE (buf.take sizeOfSDL_SysWMInfo) (4 + 4 + 8) =
      getUint64LE buf (4 + 4 + 8) :=
    getUint64LE_take buf sizeOfSDL_SysWMInfo (4 + 4 + 8) (by norm_num [sizeOfSDL_SysWMInfo])
  have h24 : getUint64LE (buf.take sizeOfSDL_SysWMInfo) (4 + 4 + 8 + 8) =
      getUint64LE buf (4 + 4 + 8 + 8) :=
    getUint64LE_take buf sizeOfSDL_SysWMInfo (4 + 4 + 8 + 8) (by norm_num [sizeOfSDL_SysWMInfo])
  refine ⟨rfl, rfl, ?_, ?_, ?_⟩
  · exact getUint32LE_take recBuf sizeOfEvent 0 (by norm_num [sizeOfEvent])
  · simp only [createSurfaceMain, h32, h8, h16, h24]
  · simp only [createSurfaceR3f, h32, h8, h16, h24]

/-- Claim C8: `createWindow` throws its window-creation error if and only
if the native `SDL_CreateWindow` call returned a null handle; on macOS it
additionally requests the Metal view handle, and a null result of that call
is not by itself fatal (the returned record simply carries `none`); on
non-macOS platforms the view call is not made and the view handle is
null. -/
theorem C8_createWindow_nullcheck (os : String) (rawResult mv : Option Nat) (w : Nat) :
    (isError (createWindow os rawResult mv) = true ↔ rawResult = none) ∧
    (os = "darwin" → createWindow os (some w) mv = Except.ok ⟨w, mv, true⟩) ∧
    (os ≠ "darwin" → createWindow os (some w) mv = Except.ok ⟨w, none, false⟩) := by
  refine ⟨?_, ?_, ?_⟩
  · cases rawResult with
    | none => simp [createWindow, isError]
    | some r => by_cases hd : os = "darwin" <;> simp [createWindow, isError, hd]
  · intro hd; simp [createWindow, hd]
  · intro hd; simp [createWindow, hd]

/-- Witness for C8 at concrete inputs: darwin with a null Metal view still
succeeds, linux makes no view call, and a null window handle fails. -/
theorem C8_createWindow_nullcheck_witness :
    createWindow "darwin" (some 7) none = Except.ok ⟨7, none, true⟩ ∧
    createWindow "linux" (some 7) (some 3) = Except.ok ⟨7, none, false⟩ ∧
    isError (createWindow "windows" none none) = true := by
  refine ⟨(C8_createWindow_nullcheck "darwin" (some 7) none 7).2.1 rfl,
    (C8_createWindow_nullcheck "linux" (some 7) (some 3) 7).2.2 (by decide),
    (C8_createWindow_nullcheck "windows" none none 0).1.mpr rfl⟩

/-- Claim C6: library resolution probes only on macOS.  On any other
`Deno.build.os` value the bare name `"SDL2"` is returned directly, with no
dependence on the probing predicate at all; on darwin the first candidate
of the fixed ordered list whose `statSync` succeeds is returned, and if
none exists the bare name `"SDL2"` is returned. -/
theorem C6_resolve_library (f g : String → Bool) :
    (∀ os, os ≠ "darwin" →
      resolveSdl2Library os f = "SDL2" ∧ resolveSdl2Library os f = resolveSdl2Library os g) ∧
    (∀ i, i < sdl2Candidates.length →
      (∀ j, j < i → f (sdl2Candidates.getD j "SDL2") = false) →
      f (sdl2Candidates.getD i "SDL2") = true →
      resolveSdl2Library "darwin" f = sdl2Candidates.getD i "SDL2") ∧
    ((∀ c, c ∈ sdl2Candidates → f c = false) → resolveSdl2Library "darwin" f = "SDL2") := by
  refine ⟨?_, ?_, ?_⟩
  · intro os hos
    constructor <;> simp [resolveSdl2Library, hos]
  · intro i hi hprev hcur
    have h5 : i < 5 := by simpa [sdl2Candidates] using hi
    interval_cases i
    · simp [sdl2Candidates] at hcur
      simp [resolveSdl2Library, sdl2Candidates, List.find?, hcur]
    · have h0 := hprev 0 (by norm_num)
      simp [sdl2Candidates] at h0 hcur
      simp [resolveSdl2Library, sdl2Candidates, List.find?, h0, hcur]
    · have h0 := hprev 0 (by norm_num)
      have h1 := hprev 1 (by norm_num)
      simp [sdl2Candidates] at h0 h1 hcur
      simp [resolveSdl2Library, sdl2Candidates, List.find?, h0, h1, hcur]
    · have h0 := hprev 0 (by norm_num)
      have h1 := hprev 1 (by norm_num)
      have h2 := hprev 2 (by norm_num)
      simp [sdl2Candidates] at h0 h1 h2 hcur
      simp [resolveSdl2Library, sdl2Candidates, List.find?, h0, h1, h2, hcur]
    · have h0 := hprev 0 (by norm_num)
      have h1 := hprev 1 (by norm_num)
      have h2 := hprev 2 (by norm_num)
      have h3 := hprev 3 (by norm_num)
      simp [sdl2Candidates] at h0 h1 h2 h3 hcur
      simp [resolveSdl2Library, sdl2Candidates, List.find?, h0, h1, h2, h3, hcur]
  · intro hall
    have hnone : sdl2Candidates.find? f = none := by
      rw [List.find?_eq_none]
      intro x hx
      simp [hall x hx]
    simp [resolveSdl2Library, hnone]

/-- Witness for C6: when exactly the fourth candidate exists on disk,
resolution on darwin selects it. -/
theorem C6_resolve_library_witness :
    resolveSdl2Library "darwin" (fun s => s == "/usr/local/lib/libSDL2.dylib") =
      "/usr/local/lib/libSDL2.dylib" := by
  have h := (C6_resolve_library (fun s => s == "/usr/local/lib/libSDL2.dylib")
    (fun s => s == "/usr/local/lib/libSDL2.dylib")).2.1 3 (by decide) (by decide) (by decide)
  simpa [sdl2Candidates] using h

/-- Claim C4: a drain pass over non-quit events followed by a quit event
dequeues every preceding event, performs exactly one transition of the
running flag (true to false, at the quit event, whose discriminant 0x100 is
read as a u32 at offset 0 of the record), and breaks the inner loop there,
leaving any later events queued. -/
theorem C4_drain_quit (ns : List (List Nat)) (q : List Nat) (rest : List (List Nat))
    (hns : ∀ r, r ∈ ns → getUint32LE r 0 ≠ SDL_QUIT)
    (hq : getUint32LE q 0 = SDL_QUIT) :
    drainEvents (ns ++ q :: rest) true = (false, ns.length + 1, rest) := by
  induction ns with
  | nil => simp [drainEvents, hq]
  | cons r ns ih =>
    have hr := hns r (by simp)
    have ih2 := ih (fun x hx => hns x (by simp [hx]))
    simp [drainEvents, hr, ih2]

/-- Witness for C4: one non-quit event then the quit event gives exactly
the transition to stopped after dequeuing both. -/
theorem C4_drain_quit_witness :
    drainEvents [noopRec, quitRec] true = (false, 2, []) := by
  have h := C4_drain_quit [noopRec] quitRec [] (by decide) (by decide)
  simpa using h

/-- Draining with the running flag already false never turns it true. -/
theorem drainEvents_false (l : List (List Nat)) : (drainEvents l false).1 = false := by
  induction l with
  | nil => simp [drainEvents]
  | cons e l ih => by_cases he : getUint32LE e 0 = SDL_QUIT <;> simp [drainEvents, he, ih]

/-- Claim C9: the loop state is the boolean running flag (exactly the two
states running/stopped), and stopped is absorbing: an iteration of the
imperative loop body, an iteration of the reactive loop body together with
its registered post-render hook, and the loops as a whole never set the
flag back to true — once false, the very next `while (running)` check exits
and only the shutdown lines run. -/
theorem C9_stopped_absorbing (r : Bool) (it : IterInput) (it2 : R3fIterInput) :
    (r = false → (mainIter r it).2 = false) ∧
    (r = false → (r3fIter r it2).2 = false) ∧
    (∀ ms, runMainAux false ms =
      ([LoopAction.destroyWindow, LoopAction.sdlQuit], Outcome.finished)) ∧
    (∀ rs, runR3fAux false rs =
      ([LoopAction.destroyWindow, LoopAction.sdlQuit], Outcome.finished)) := by
  refine ⟨?_, ?_, ?_, ?_⟩
  · intro hr; subst hr; simp [mainIter, drainEvents_false]
  · intro hr; subst hr
    by_cases hp : it2.pollThrows <;> by_cases hf : it2.frameDuringSleep <;>
      by_cases hpr : it2.presentThrows <;> simp [r3fIter, hp, hf, hpr, drainEvents_false]
  · intro ms; cases ms <;> simp [runMainAux]
  · intro rs; cases rs <;> simp [runR3fAux]

/-- Witness for C9: with the flag already false, neither loop body sets it
back to true, even when a quit-free queue or a scheduled frame is
present. -/
theorem C9_stopped_absorbing_witness :
    (mainIter false ⟨[noopRec], false⟩).2 = false ∧
    (r3fIter false ⟨[noopRec], false, true, false⟩).2 = false := by
  have h := C9_stopped_absorbing false ⟨[noopRec], false⟩ ⟨[noopRec], false, true, false⟩
  exact ⟨h.1 rfl, h.2.1 rfl⟩

/-- Counting a loop action in a replicated poll trace of a different
action gives zero. -/
theorem count_replicate_ne (a b : LoopAction) (n : Nat) (h : a ≠ b) :
    (List.replicate n b).count a = 0 := by
  simp [List.count_replicate]
  intro h2
  exact absurd h2.symm h

/-- An imperative iteration's trace contains no shutdown action. -/
theorem mainIter_no_shutdown (r : Bool) (it : IterInput) :
    (mainIter r it).1.count LoopAction.destroyWindow = 0 ∧
    (mainIter r it).1.count LoopAction.sdlQuit = 0 := by
  constructor <;>
    simp [mainIter, List.count_append, count_replicate_ne, List.count_cons]

/-- A reactive iteration's trace contains no shutdown action. -/
theorem r3fIter_no_shutdown (r : Bool) (it : R3fIterInput) :
    (r3fIter r it).1.count LoopAction.destroyWindow = 0 ∧
    (r3fIter r it).1.count LoopAction.sdlQuit = 0 := by
  by_cases hp : it.pollThrows <;> by_cases hf : it.frameDuringSleep <;>
    constructor <;>
    simp [r3fIter, hp, hf, List.count_append, count_replicate_ne, List.count_cons]

/-- When the imperative run reaches a normal exit, its trace ends with
destroy-window followed by library-quit and contains each exactly once. -/
theorem runMainAux_finished (l : List IterInput) : ∀ r : Bool,
    (runMainAux r l).2 = Outcome.finished →
    (runMainAux r l).1.count LoopAction.destroyWindow = 1 ∧
    (runMainAux r l).1.count LoopAction.sdlQuit = 1 ∧
    ∃ pre, (runMainAux r l).1 = pre ++ [LoopAction.destroyWindow, LoopAction.sdlQuit] := by
  induction l with
  | nil =>
    intro r h
    cases r with
    | false => exact ⟨by decide, by decide, [], rfl⟩
    | true => simp [runMainAux] at h
  | cons it rest ih =>
    intro r h
    cases r with
    | false => refine ⟨?_, ?_, [], ?_⟩ <;> simp [runMainAux, List.count_cons]
    | true =>
      by_cases hp : it.presentThrows
      · simp [runMainAux, hp] at h
      · have h2 : (runMainAux (mainIter true it).2 rest).2 = Outcome.finished := by
          simpa [runMainAux, hp] using h
        obtain ⟨hc1, hc2, pre, hpre⟩ := ih (mainIter true it).2 h2
        have hms := mainIter_no_shutdown true it
        refine ⟨?_, ?_, (mainIter true it).1 ++ pre, ?_⟩
        · simp [runMainAux, hp, List.count_append, hms.1, hc1]
        · simp [runMainAux, hp, List.count_append, hms.2, hc2]
        · simp [runMainAux, hp, hpre]

/-- When the imperative run crashes out of the loop (uncaught present
exception), its trace contains no shutdown action at all. -/
theorem runMainAux_crashed (l : List IterInput) : ∀ r : Bool,
    (runMainAux r l).2 = Outcome.crashed →
    (runMainAux r l).1.count LoopAction.destroyWindow = 0 ∧
    (runMainAux r l).1.count LoopAction.sdlQuit = 0 := by
  induction l with
  | nil => intro r h; cases r <;> simp [runMainAux] at h
  | cons it rest ih =>
    intro r h
    cases r with
    | false => simp [runMainAux] at h
    | true =>
      by_cases hp : it.presentThrows
      · have hms := mainIter_no_shutdown true it
        constructor <;> simp [runMainAux, hp, hms.1, hms.2]
      · have h2 : (runMainAux (mainIter true it).2 rest).2 = Outcome.crashed := by
          simpa [runMainAux, hp] using h
        obtain ⟨hc1, hc2⟩ := ih (mainIter true it).2 h2
        have hms := mainIter_no_shutdown true it
        constructor <;>
          simp [runMainAux, hp, List.count_append, hms.1, hms.2, hc1, hc2]

/-- When the reactive run reaches a normal exit, its trace ends with
destroy-window followed by library-quit and contains each exactly once. -/
theorem runR3fAux_finished (l : List R3fIterInput) : ∀ r : Bool,
    (runR3fAux r l).2 = Outcome.finished →
    (runR3fAux r l).1.count LoopAction.destroyWindow = 1 ∧
    (runR3fAux r l).1.count LoopAction.sdlQuit = 1 ∧
    ∃ pre, (runR3fAux r l).1 = pre ++ [LoopAction.destroyWindow, LoopAction.sdlQuit] := by
  induction l with
  | nil =>
    intro r h
    cases r with
    | false => exact ⟨by decide, by decide, [], rfl⟩
    | true => simp [runR3fAux] at h
  | cons it rest ih =>
    intro r h
    cases r with
    | false => refine ⟨?_, ?_, [], ?_⟩ <;> simp [runR3fAux, List.count_cons]
    | true =>
      have h2 : (runR3fAux (r3fIter true it).2 rest).2 = Outcome.finished := by
        simpa [runR3fAux] using h
      obtain ⟨hc1, hc2, pre, hpre⟩ := ih (r3fIter true it).2 h2
      have hns := r3fIter_no_shutdown true it
      refine ⟨?_, ?_, (r3fIter true it).1 ++ pre, ?_⟩
      · simp [runR3fAux, List.count_append, hns.1, hc1]
      · simp [runR3fAux, List.count_append, hns.2, hc2]
      · simp [runR3fAux, hpre]

/-- Counterexample to claim C1 as stated: in the imperative variant a
`present` that throws on iteration 0 makes the loop exit via the uncaught
exception, and `SDL_DestroyWindow`/`SDL_Quit` are never called — not
exactly once as the claim requires for the present-failure exit. -/
theorem C1_counterexample :
    (runMain [⟨[], true⟩]).2 = Outcome.crashed ∧
    (runMain [⟨[], true⟩]).1.count LoopAction.destroyWindow = 0 ∧
    (runMain [⟨[], true⟩]).1.count LoopAction.sdlQuit = 0 := by decide

/-- Claim C1 as amended: on every execution that exits the loop normally —
a dequeued quit event in either variant, or a present failure in the
reactive variant, where the hook catches it and clears the running flag —
the shutdown sequence runs exactly once, destroy-window first and then
library-quit, as the final two actions of the run.  In the imperative
variant a throwing present propagates out uncaught and neither shutdown
call runs. -/
theorem C1_amended_shutdown_once (ms : List IterInput) (rs : List R3fIterInput) :
    ((runMain ms).2 = Outcome.finished →
      (runMain ms).1.count LoopAction.destroyWindow = 1 ∧
      (runMain ms).1.count LoopAction.sdlQuit = 1 ∧
      ∃ pre, (runMain ms).1 = pre ++ [LoopAction.destroyWindow, LoopAction.sdlQuit]) ∧
    ((runMain ms).2 = Outcome.crashed →
      (runMain ms).1.count LoopAction.destroyWindow = 0 ∧
      (runMain ms).1.count LoopAction.sdlQuit = 0) ∧
    ((runR3f rs).2 = Outcome.finished →
      (runR3f rs).1.count LoopAction.destroyWindow = 1 ∧
      (runR3f rs).1.count LoopAction.sdlQuit = 1 ∧
      ∃ pre, (runR3f rs).1 = pre ++ [LoopAction.destroyWindow, LoopAction.sdlQuit]) ∧
    (∀ it rest, it.frameDuringSleep = true → it.presentThrows = true →
      (runR3f (it :: rest)).2 = Outcome.finished ∧
      (runR3f (it :: rest)).1.count LoopAction.destroyWindow = 1 ∧
      (runR3f (it :: rest)).1.count LoopAction.sdlQuit = 1) := by
  refine ⟨runMainAux_finished ms true, runMainAux_crashed ms true,
    runR3fAux_finished rs true, ?_⟩
  intro it rest hf hp
  have hiter : (r3fIter true it).2 = false := by simp [r3fIter, hf, hp]
  have hns := r3fIter_no_shutdown true it
  refine ⟨?_, ?_, ?_⟩ <;>
    simp [runR3f, runR3fAux, hiter, List.count_append, hns.1, hns.2, List.count_cons]

/-- Witness for C1 as amended: a quit event in the imperative variant, and
a caught present failure in the reactive variant, each end with the
shutdown pair exactly once. -/
theorem C1_amended_shutdown_once_witness :
    (runMain [⟨[quitRec], false⟩]).1.count LoopAction.destroyWindow = 1 ∧
    (runMain [⟨[quitRec], false⟩]).1.count LoopAction.sdlQuit = 1 ∧
    (runR3f [⟨[], false, true, true⟩]).2 = Outcome.finished ∧
    (runR3f [⟨[], false, true, true⟩]).1.count LoopAction.sdlQuit = 1 := by
  have h := C1_amended_shutdown_once [⟨[quitRec], false⟩] [⟨[], false, true, true⟩]
  have h4 := h.2.2.2 ⟨[], false, true, true⟩ [] rfl rfl
  exact ⟨(h.1 (by decide)).1, (h.1 (by decide)).2.1, h4.1, h4.2.2⟩

/-- Counterexample to claim C3 as stated: in the imperative variant the
drain pass of the single iteration dequeues the quit event and sets the
state to stopped, yet the same iteration still performs one frame tick and
one present before the loop exits — the loop body has no running-flag check
between event drain and render/present. -/
theorem C3_counterexample :
    (drainEvents [quitRec] true).1 = false ∧
    (runMain [⟨[quitRec], false⟩]).1.count LoopAction.renderFrame = 1 ∧
    (runMain [⟨[quitRec], false⟩]).1.count LoopAction.present = 1 := by decide

/-- Claim C3 as amended: in the imperative variant the frame tick and
present run unconditionally in every iteration, including the one whose
drain pass dequeued the quit event; exactly one further render and one
further present occur after the transition to stopped, after which the loop
exits directly into the shutdown pair with no additional tick or
present. -/
theorem C3_amended_one_present_after_quit (it : IterInput) (rest : List IterInput)
    (hstop : (drainEvents it.events true).1 = false)
    (hok : it.presentThrows = false) :
    runMainAux true (it :: rest) =
      (List.replicate (drainEvents it.events true).2.1 LoopAction.pollEvent ++
        [LoopAction.renderFrame, LoopAction.present,
          LoopAction.destroyWindow, LoopAction.sdlQuit],
        Outcome.finished) := by
  simp [runMainAux, mainIter, hok, hstop]

/-- Witness for C3 as amended: a quit event on the first iteration gives
poll, render, present, destroy-window, library-quit and nothing else. -/
theorem C3_amended_one_present_after_quit_witness :
    runMainAux true [⟨[quitRec], false⟩] =
      ([LoopAction.pollEvent, LoopAction.renderFrame, LoopAction.present,
        LoopAction.destroyWindow, LoopAction.sdlQuit], Outcome.finished) := by
  have h := C3_amended_one_present_after_quit ⟨[quitRec], false⟩ [] (by decide) rfl
  rw [h]
  decide

/-- Counterexample to claim C7 as stated: a full imperative-variant run
(one iteration, then a quit-triggered exit) contains no yield action at
all — the src/main.ts loop has no sleep between iterations. -/
theorem C7_counterexample :
    (runMain [⟨[quitRec], false⟩]).1.count LoopAction.yieldSleep = 0 ∧
    (runMain [⟨[quitRec], false⟩]).1 ≠ [] := by decide

/-- Claim C7 as amended: only the reactive variant yields.  Every reactive
iteration ends with exactly one unconditional 1 ms sleep — the iteration's
last action, performed whether or not any event was processed or any frame
was rendered — while an imperative iteration contains no yield action at
all. -/
theorem C7_amended_yield (r : Bool) (it : R3fIterInput) (it2 : IterInput) :
    (r3fIter r it).1.getLast? = some LoopAction.yieldSleep ∧
    (r3fIter r it).1.count LoopAction.yieldSleep = 1 ∧
    (mainIter r it2).1.count LoopAction.yieldSleep = 0 := by
  refine ⟨?_, ?_, ?_⟩
  · by_cases hp : it.pollThrows <;> by_cases hf : it.frameDuringSleep <;>
      simp [r3fIter, hp, hf, ← List.append_assoc, List.getLast?_concat]
  · by_cases hp : it.pollThrows <;> by_cases hf : it.frameDuringSleep <;>
      simp [r3fIter, hp, hf, List.count_append, count_replicate_ne, List.count_cons]
  · simp [mainIter, List.count_append, count_replicate_ne, List.count_cons]

/-- Counterexample to claim C2 as stated: in the reactive variant on macOS
with an invalid subsystem discriminant (0, not Cocoa = 4), `createSurface`
does not fail — it silently constructs and returns a cocoa surface. -/
theorem C2_counterexample :
    specValidSubsystem "darwin" (getUint32LE (List.replicate 519 0) 4) = false ∧
    createSurfaceR3f "darwin" true (List.replicate 519 0) (some 1) 800 600 =
      Except.ok ⟨"cocoa", 0, some 1, 800, 600⟩ := by
  exact ⟨by decide, rfl⟩

/-- Claim C2 as amended: in the imperative variant every (OS, discriminant)
pair outside the valid set fails with a thrown error and no surface is
returned; in the reactive variant this holds on Linux and on unknown
platforms, but the macOS and Windows branches construct the surface without
validating the discriminant. -/
theorem C2_amended_subsystem_validation (os : String) (buf : List Nat) (mv : Option Nat)
    (w h : Nat) (hinv : specValidSubsystem os (getUint32LE buf 4) = false) :
    isError (createSurfaceMain os true buf mv w h) = true ∧
    (os ≠ "darwin" → os ≠ "windows" → isError (createSurfaceR3f os true buf mv w h) = true) := by
  by_cases hd : os = "darwin"
  · subst hd
    simp [specValidSubsystem] at hinv
    refine ⟨by simp [createSurfaceMain, isError, hinv], fun hc => absurd rfl hc⟩
  · by_cases hw : os = "windows"
    · subst hw
      simp [specValidSubsystem] at hinv
      constructor
      · by_cases h8 : getUint32LE buf 4 = 8 <;>
          simp [createSurfaceMain, isError, hinv, h8]
      · intro h1 hc; exact absurd rfl hc
    · by_cases hl : os = "linux"
      · subst hl
        simp [specValidSubsystem] at hinv
        obtain ⟨h2, h6⟩ := hinv
        constructor
        · simp [createSurfaceMain, isError, h2, h6]
        · intro h1 h3; simp [createSurfaceR3f, isError, h2, h6]
      · constructor
        · simp [createSurfaceMain, isError, hd, hw, hl]
        · intro h1 h3; simp [createSurfaceR3f, isError, hd, hw, hl]

/-- Witness for C2 as amended: on Linux with discriminant 3 (neither X11
nor Wayland), both variants fail. -/
theorem C2_amended_subsystem_validation_witness :
    isError (createSurfaceMain "linux" true
      (0 :: 0 :: 0 :: 0 :: 3 :: List.replicate 514 0) none 800 600) = true ∧
    isError (createSurfaceR3f "linux" true
      (0 :: 0 :: 0 :: 0 :: 3 :: List.replicate 514 0) none 800 600) = true := by
  have h := C2_amended_subsystem_validation "linux"
    (0 :: 0 :: 0 :: 0 :: 3 :: List.replicate 514 0) none 800 600 (by decide)
  exact ⟨h.1, h.2 (by decide) (by decide)⟩
